import Mathlib

/- Verification development for the daily-French-word webhook agent
   (src/app.js). The file shallowly embeds the agent's catalog loading,
   per-conversation rotation state, payload extraction, branch decision and
   response composition as executable Lean definitions, and proves the
   specified properties about them. Strings are modelled with Lean strings
   (source text is ASCII where case handling matters); the JS object used
   as the progress store is modelled as a function from channel ids to
   optional progress records; JS truthiness of strings (empty string is
   falsy) is modelled explicitly where the source relies on it. -/

namespace DailyWord

/-- One catalog entry, from the objects of the WORDS list in src/app.js.
The source field named example is called ex here (Lean keyword). -/
structure WordEntry where
  word : String
  meaning : String
  ex : String
  pron : String
  deriving DecidableEq

/-- Per-conversation rotation state, from the records stored in PROGRESS:
an index and the last_sent timestamp (modelled as an opaque string). -/
structure Progress where
  index : Nat
  last_sent : Option String
  deriving DecidableEq

/-- The in-memory PROGRESS object: a mapping from channel id to an optional
progress record (none models an absent key). -/
def ProgressMap : Type := String → Option Progress

/-- The built-in default word list of src/app.js (lines 35-42). -/
def defaultWords : List WordEntry :=
  [ { word := "bonjour", meaning := "hello (good day)",
      ex := "Bonjour! Comment ça va?", pron := "bohn-zhoor" },
    { word := "merci", meaning := "thank you",
      ex := "Merci pour ton aide.", pron := "mehr-see" },
    { word := "s\x27il vous plaît", meaning := "please",
      ex := "Un café, s\x27il vous plaît.", pron := "seel voo pleh" },
    { word := "amour", meaning := "love",
      ex := "L\x27amour est beau.", pron := "ah-moor" },
    { word := "chien", meaning := "dog",
      ex := "Le chien court dans le parc.", pron := "shee-en" },
    { word := "chat", meaning := "cat",
      ex := "Le chat dort sur la chaise.", pron := "sha" } ]

/-- The possible states of the external french_words.json source as seen by
the loading code (lines 44-53): file absent, JSON.parse throwing, parsing
to a non-array value, or parsing to an array of entries. -/
inductive CatalogSource where
  | missing
  | unparseable
  | nonArray
  | array (entries : List WordEntry)
  deriving DecidableEq

/-- Catalog loading (src/app.js lines 35-53): WORDS starts as the default
list and is replaced only when the file exists, parses, is an array and has
positive length. -/
def loadWords : CatalogSource → List WordEntry
  | CatalogSource.array parsed =>
      if 0 < parsed.length then parsed else defaultWords
  | _ => defaultWords

/-- pickNextWord (src/app.js lines 73-82). The source lazily creates the
entry { index: 0, last_sent: null } when the key is absent, reads
index % total, stores (index + 1) % total and the timestamp, and returns
the served index together with WORDS[idx] (which is undefined, modelled as
none, when idx is out of range). The synchronous saveProgress call has no
effect on the in-memory state and is modelled at the handler level. -/
def pickNextWord (words : List WordEntry) (now : String) (channelId : String)
    (P : ProgressMap) : Nat × Option WordEntry × ProgressMap :=
  let total := words.length
  let prog := (P channelId).getD { index := 0, last_sent := none }
  let idx := prog.index % total
  let P2 : ProgressMap := fun c =>
    if c = channelId then
      some { index := (prog.index + 1) % total, last_sent := some now }
    else P c
  (idx, words[idx]?, P2)

/-- Iterated rotation: the list of (index, entry) results of n successive
pickNextWord calls for one channel, together with the final state. -/
def serveN (words : List WordEntry) (now : String) (c : String) :
    Nat → ProgressMap → List (Nat × Option WordEntry) × ProgressMap
  | 0, P => ([], P)
  | n + 1, P =>
    let r := pickNextWord words now c P
    let rest := serveN words now c n r.2.2
    ((r.1, r.2.1) :: rest.1, rest.2)

/-- The effective stored cursor of a channel: the index field of its record,
with the lazily-created default 0 when the key is absent. -/
def effIdx (P : ProgressMap) (c : String) : Nat :=
  ((P c).getD { index := 0, last_sent := none }).index

/-- The nested channel object of an inbound payload (body.channel). -/
structure ChannelObj where
  id : Option String
  deriving DecidableEq

/-- The nested metadata object of an inbound payload (body.metadata). -/
structure Metadata where
  channelId : Option String
  deriving DecidableEq

/-- The inbound request body, restricted to the fields the handler probes
(src/app.js lines 114-126). A none field models an absent (or, for
address, non-string) value. -/
structure Body where
  channel : Option ChannelObj
  channelId : Option String
  address : Option String
  metadata : Option Metadata
  text : Option String
  message : Option String
  content : Option String
  deriving DecidableEq

/-- JS a || b for a string-or-absent left operand and an already-computed
string right operand: the left value is taken only when truthy, i.e.
present and non-empty. -/
def jsOrStr (a : Option String) (b : String) : String :=
  match a with
  | some s => if s = "" then b else s
  | none => b

/-- body.address.split("/")[0]: the first slash-separated segment. -/
def firstSegment (a : String) : String :=
  (a.splitOn ("/")).headD ("")

/-- Channel id extraction (src/app.js lines 118-123), the JS truthiness
chain body.channel.id || body.channelId || address-first-segment ||
body.metadata.channelId || "global". -/
def extractChannelId (body : Body) : String :=
  jsOrStr (body.channel.bind ChannelObj.id)
    (jsOrStr body.channelId
      (jsOrStr (body.address.map firstSegment)
        (jsOrStr (body.metadata.bind Metadata.channelId) ("global"))))

/-- JS String.prototype.trim, modelled on the character list: leading and
trailing whitespace removed. -/
def jsTrim (s : String) : String :=
  ⟨((s.data.dropWhile Char.isWhitespace).reverse.dropWhile
      Char.isWhitespace).reverse⟩

/-- JS String.prototype.toLowerCase, modelled per character (ASCII case
folding; every case-bearing character in the embedded texts is ASCII). -/
def jsToLower (s : String) : String :=
  ⟨s.data.map Char.toLower⟩

/-- Incoming text extraction (src/app.js line 126):
(body.text || body.message || body.content || "").trim().toLowerCase(). -/
def extractText (body : Body) : String :=
  jsToLower (jsTrim (jsOrStr body.text (jsOrStr body.message (jsOrStr body.content ("")))))

/-- The handler's branch condition (src/app.js line 129): the normalized
text is truthy, has positive length, is not "daily word" and is not among
["start", "help"]; when true the acknowledgement branch runs, otherwise
the daily-word branch. -/
def isAckBranch (t : String) : Bool :=
  (t != "") && decide (t.length > 0) && (t != "daily word")
    && !(["start", "help"].contains t)

/-- List containment of one list in another, used to model JS
String.prototype.includes on the underlying character lists. -/
def containsSub (s pat : List Char) : Bool :=
  pat.isPrefixOf s ||
    match s with
    | [] => false
    | _ :: rest => containsSub rest pat

/-- JS s.includes(pat): pat occurs contiguously inside s. -/
def strIncludes (s pat : String) : Bool :=
  containsSub s.data pat.data

/-- JS truthiness of a string-or-absent value: present and non-empty. -/
def jsTruthyStr : Option String → Bool
  | some s => s != ""
  | none => false

/-- The congratulation text of src/app.js line 135. -/
def congratsText (w : String) : String :=
  s!"Amazing — you used the word \"{w}\" correctly! Très bien 🎉\nWould you like another word tomorrow?"

/-- The encouragement text of src/app.js line 137. -/
def tipText (e : String) : String :=
  s!"Thanks — nice try! Here\x27s a tip: include the new word in your sentence (e.g., \"{e}\")."

/-- The last-served-index computation of src/app.js line 131:
PROGRESS[channelId]?.index ? (index + total - 1) % total : null.
The JS condition is truthy only when the record exists and its index is
non-zero. -/
def lastIndexOf (words : List WordEntry) (P : ProgressMap)
    (channelId : String) : Option Nat :=
  match P channelId with
  | some prog =>
      if prog.index != 0 then
        some ((prog.index + words.length - 1) % words.length)
      else none
  | none => none

/-- Acknowledgement reply composition (src/app.js lines 132-138): praise
when the (truthy) last word occurs in the incoming text, otherwise a tip
whose example is the last entry's example sentence when a last word exists
and the literal "example" otherwise. The initial assignment of replyText
in the source is dead (always overwritten) and is omitted. -/
def ackReplyText (words : List WordEntry) (lastIndex : Option Nat)
    (incomingText : String) : String :=
  let lastEntry : Option WordEntry := lastIndex.bind fun i => words[i]?
  let lastWord : Option String := lastEntry.map WordEntry.word
  if jsTruthyStr lastWord && strIncludes incomingText (lastWord.getD ("")) then
    congratsText (lastWord.getD (""))
  else
    tipText (if jsTruthyStr lastWord
      then (lastEntry.map WordEntry.ex).getD ("example") else "example")

/-- One suggested UI action of the outbound payload. -/
structure Action where
  type : String
  title : String
  payload : String
  deriving DecidableEq

/-- The outbound payload (src/app.js lines 89-104). -/
structure OutPayload where
  type : String
  text : String
  actions : List Action
  deriving DecidableEq

/-- buildResponsePayload (src/app.js lines 89-104); the original-payload
argument is unused by the source and omitted. -/
def buildResponsePayload (text : String) (askForSentence : Bool) : OutPayload :=
  { type := "message", text := text,
    actions :=
      if askForSentence then
        [ { type := "button", title := "I\x27ll use it now",
            payload := "I used the word: " },
          { type := "button", title := "Send a sentence later",
            payload := "send later" } ]
      else [] }

/-- The daily-word message composition of src/app.js line 144. -/
def composeDaily (wordObj : WordEntry) : String :=
  let w := wordObj.word
  let p := wordObj.pron
  let m := wordObj.meaning
  let e := wordObj.ex
  s!"🇫🇷 *Word of the day* — *{w}*\nPronunciation: {p}\nMeaning: {m}\nExample: {e}\n\nCan you write a sentence using *{w}*? Reply here and I\x27ll give feedback!"

/-- A request outcome: a JSON success payload, or the generic 500 error
body produced by the catch-all (src/app.js lines 148-151). -/
inductive HandlerResult where
  | ok (payload : OutPayload)
  | err (msg : String)
  deriving DecidableEq

/-- The POST /mastra/agent handler (src/app.js lines 111-152), returning
the response together with the in-memory progress state after the request.
saveFails models whether the synchronous fs.writeFileSync inside
saveProgress throws; the throw happens after the in-memory mutation, is
caught at the handler boundary and becomes the generic error response. A
daily-word request on an empty catalog would dereference undefined and is
likewise caught (the none case of the served entry). -/
def handle (words : List WordEntry) (saveFails : Bool) (now : String)
    (body : Body) (P : ProgressMap) : HandlerResult × ProgressMap :=
  let channelId := extractChannelId body
  let incomingText := extractText body
  if isAckBranch incomingText then
    let replyText := ackReplyText words (lastIndexOf words P channelId) incomingText
    (HandlerResult.ok (buildResponsePayload replyText false), P)
  else
    let r := pickNextWord words now channelId P
    (if saveFails then HandlerResult.err ("Agent internal error")
     else
       match r.2.1 with
       | some wordObj =>
           HandlerResult.ok (buildResponsePayload (composeDaily wordObj) true)
       | none => HandlerResult.err ("Agent internal error"), r.2.2)

/-- Claim-side reading of identifier extraction: the first probe that
yields any value at all (present field), regardless of emptiness. -/
def firstPresent : List (Option String) → Option String
  | [] => none
  | some s :: _ => some s
  | none :: rest => firstPresent rest

/-- Amended reading of identifier extraction: the first probe that yields
a truthy (non-empty) value, as JS || does. -/
def firstTruthy : List (Option String) → Option String
  | [] => none
  | some s :: rest => if s = "" then firstTruthy rest else some s
  | none :: rest => firstTruthy rest

/-- The four identifier probes of src/app.js lines 119-122, in source
order: nested channel-object id, top-level channel id, first segment of a
string-valued address, nested metadata channel id. -/
def candidates (body : Body) : List (Option String) :=
  [ body.channel.bind ChannelObj.id,
    body.channelId,
    body.address.map firstSegment,
    body.metadata.bind Metadata.channelId ]

/-- Claim-side channel id: first present probe, else the sentinel. -/
def claimChannelId (body : Body) : String :=
  (firstPresent (candidates body)).getD ("global")

/-- Whether a catalog source parses to a non-empty array (the condition
under which the source list replaces the default). -/
def isNonEmptyArraySrc : CatalogSource → Bool
  | CatalogSource.array es => decide (0 < es.length)
  | _ => false

/-- An empty progress store: no conversation has any record. -/
def freshP : ProgressMap := fun _ => none

/-- A payload whose normalized text is the trigger phrase "daily word"
spelled with extra whitespace and mixed case. -/
def bodyDaily : Body :=
  { channel := none, channelId := some (" DAILY Word "),
    address := none, metadata := none,
    text := some (" DAILY Word "), message := none, content := none }

/-- A payload carrying an ordinary free-text reply. -/
def bodyReply : Body :=
  { channel := none, channelId := some ("g"), address := none,
    metadata := none, text := some ("bonjour tout le monde"),
    message := none, content := none }

/-- A free-text reply to channel g that uses the word chat. -/
def bodyChat : Body :=
  { channel := none, channelId := some ("g"), address := none,
    metadata := none, text := some ("le chat dort sur la chaise"),
    message := none, content := none }

/-- A free-text reply to channel g using the word Chien in mixed case. -/
def bodyChien : Body :=
  { channel := none, channelId := some ("g"), address := none,
    metadata := none, text := some ("mon Chien est mignon"),
    message := none, content := none }

/-- A payload whose top-level channel id is present but empty while the
metadata channel id carries a value. -/
def bodyC8 : Body :=
  { channel := none, channelId := some (""), address := none,
    metadata := some { channelId := some ("meta") },
    text := none, message := none, content := none }

/-- A catalog entry whose word is stored with a capital letter, as an
external french_words.json may provide. -/
def wChien : WordEntry :=
  { word := "Chien", meaning := "dog",
    ex := "Le chien court dans le parc.", pron := "shee-en" }

/-- A two-entry catalog whose first word is stored with a capital
letter. -/
def chienWords : List WordEntry :=
  [ wChien,
    { word := "chat", meaning := "cat",
      ex := "Le chat dort sur la chaise.", pron := "sha" } ]

/-- The progress store after serving channel g all six default words. -/
def sixServedP : ProgressMap :=
  (serveN defaultWords ("t0") ("g") 6 freshP).2

/-- The progress store after serving channel g one word of chienWords. -/
def oneServedChienP : ProgressMap :=
  (serveN chienWords ("t0") ("g") 1 freshP).2

/-- The updated store after a pick maps the picked channel to the advanced
record. -/
theorem pickNextWord_state_self (words : List WordEntry) (now c : String)
    (P : ProgressMap) :
    (pickNextWord words now c P).2.2 c =
      some { index := (effIdx P c + 1) % words.length, last_sent := some now } := by
  simp [pickNextWord, effIdx]

/-- The index returned by a pick is the effective cursor modulo the
catalog size. -/
theorem pickNextWord_fst (words : List WordEntry) (now c : String)
    (P : ProgressMap) :
    (pickNextWord words now c P).1 = effIdx P c % words.length := rfl

/-- The effective cursor after one pick. -/
theorem effIdx_pick (words : List WordEntry) (now c : String)
    (P : ProgressMap) :
    effIdx ((pickNextWord words now c P).2.2) c =
      (effIdx P c + 1) % words.length := by
  simp [effIdx, pickNextWord_state_self]

/-- The results of n successive picks for one channel: the k-th pick
serves index (cursor + k) % total and the entry at that index. -/
theorem serveN_fst (words : List WordEntry) (now c : String) (n : Nat)
    (P : ProgressMap) :
    (serveN words now c n P).1 =
      (List.range n).map (fun k =>
        ((effIdx P c + k) % words.length,
          words[(effIdx P c + k) % words.length]?)) := by
  induction n generalizing P with
  | zero => simp [serveN]
  | succ n ih =>
    rw [serveN, List.range_succ_eq_map, List.map_cons, List.map_map]
    refine congrArg₂ List.cons ?_ ?_
    · simp [pickNextWord, effIdx]
    · rw [ih, effIdx_pick]
      refine List.map_congr_left (fun k _ => ?_)
      have h1 : ((effIdx P c + 1) % words.length + k) % words.length
          = (effIdx P c + 1 + k) % words.length := Nat.mod_add_mod _ _ _
      have h2 : effIdx P c + 1 + k = effIdx P c + Nat.succ k := by omega
      simp [Function.comp, h1, h2, Nat.succ_eq_add_one]

/-- After at least one pick, the channel's stored record exists and holds
cursor (initial cursor + number of picks) % total with the timestamp. -/
theorem serveN_state (words : List WordEntry) (now c : String) (m : Nat)
    (P : ProgressMap) :
    (serveN words now c (m + 1) P).2 c =
      some { index := (effIdx P c + (m + 1)) % words.length,
             last_sent := some now } := by
  induction m generalizing P with
  | zero => simpa [serveN] using pickNextWord_state_self words now c P
  | succ m ih =>
    have step := ih ((pickNextWord words now c P).2.2)
    rw [effIdx_pick] at step
    have h1 : ((effIdx P c + 1) % words.length + (m + 1)) % words.length
        = (effIdx P c + 1 + (m + 1)) % words.length := Nat.mod_add_mod _ _ _
    have h2 : effIdx P c + 1 + (m + 1) = effIdx P c + (m + 1 + 1) := by omega
    rw [show serveN words now c (m + 1 + 1) P =
        (let r := pickNextWord words now c P
         let rest := serveN words now c (m + 1) r.2.2
         ((r.1, r.2.1) :: rest.1, rest.2)) from rfl]
    simpa [h1, h2] using step

/-- A non-empty string has positive length. -/
theorem strLengthPos (t : String) (h : t ≠ ("")) : 0 < t.length := by
  cases t with
  | mk data =>
    have hd : data ≠ [] := fun hh => h (by simp [hh])
    simpa [String.length] using List.length_pos.mpr hd

/-- Claim C1: for every conversation id and catalog of size T at least 1,
starting from an absent progress entry, T successive pickNextWord calls
return the catalog entries at indices 0, 1, ..., T-1 in ascending order
each exactly once, and the next call returns index 0 again. -/
theorem claim_C1_round_robin (words : List WordEntry) (now c : String)
    (P : ProgressMap) (hT : 0 < words.length) (hfresh : P c = none) :
    (serveN words now c words.length P).1 =
      (List.range words.length).map (fun k => (k, words[k]?)) ∧
    (pickNextWord words now c (serveN words now c words.length P).2).1 = 0 := by
  have he : effIdx P c = 0 := by simp [effIdx, hfresh]
  constructor
  · rw [serveN_fst, he]
    refine List.map_congr_left (fun k hk => ?_)
    have hk' : k < words.length := List.mem_range.mp hk
    simp [Nat.mod_eq_of_lt hk']
  · obtain ⟨m, hm⟩ : ∃ m, words.length = m + 1 :=
      ⟨words.length - 1, by omega⟩
    rw [pickNextWord_fst]
    conv_lhs => rw [hm]
    rw [effIdx, serveN_state, he]
    simp [hm]

/-- Witness for C1 at the default six-word catalog, channel g, empty
store. -/
theorem claim_C1_round_robin_witness :
    0 < defaultWords.length ∧ freshP ("g") = none ∧
    ((serveN defaultWords ("t0") ("g") defaultWords.length freshP).1 =
        (List.range defaultWords.length).map (fun k => (k, defaultWords[k]?)) ∧
      (pickNextWord defaultWords ("t0") ("g")
        (serveN defaultWords ("t0") ("g") defaultWords.length freshP).2).1 = 0) :=
  ⟨by decide, rfl,
    claim_C1_round_robin defaultWords ("t0") ("g") freshP (by decide) rfl⟩

/-- Claim C9: advancing the rotation for channel A leaves the stored
record of every other channel B unchanged. -/
theorem claim_C9_isolation (words : List WordEntry) (now A B : String)
    (P : ProgressMap) (h : B ≠ A) :
    (pickNextWord words now A P).2.2 B = P B := by
  simp [pickNextWord, h]

/-- Witness for C9: advancing channel alice leaves channel bob absent. -/
theorem claim_C9_isolation_witness :
    ("bob" : String) ≠ "alice" ∧
    (pickNextWord defaultWords ("t0") ("alice") freshP).2.2 ("bob") =
      freshP ("bob") :=
  ⟨by decide,
    claim_C9_isolation defaultWords ("t0") ("alice") ("bob") freshP (by decide)⟩

/-- Claim C10: after any pickNextWord call on a catalog of positive size,
the channel's stored cursor exists and lies in [0, total), and it is 0
exactly after the last catalog entry (index total - 1) has been served. -/
theorem claim_C10_cursor_range (words : List WordEntry) (now c : String)
    (P : ProgressMap) (hT : 0 < words.length) :
    ∃ prog : Progress,
      (pickNextWord words now c P).2.2 c = some prog ∧
      prog.index < words.length ∧
      ((pickNextWord words now c P).1 = words.length - 1 → prog.index = 0) := by
  refine ⟨{ index := (effIdx P c + 1) % words.length, last_sent := some now },
    pickNextWord_state_self words now c P, Nat.mod_lt _ hT, ?_⟩
  intro h
  rw [pickNextWord_fst] at h
  have h1 : (effIdx P c + 1) % words.length
      = (effIdx P c % words.length + 1) % words.length := by
    conv_lhs => rw [← Nat.mod_add_mod]
  simp only [h1, h]
  have h2 : words.length - 1 + 1 = words.length := by omega
  simp [h2]

/-- Witness for C10 at the default catalog and an empty store. -/
theorem claim_C10_cursor_range_witness :
    0 < defaultWords.length ∧
    ∃ prog : Progress,
      (pickNextWord defaultWords ("t0") ("g") freshP).2.2 ("g") = some prog ∧
      prog.index < defaultWords.length ∧
      ((pickNextWord defaultWords ("t0") ("g") freshP).1 =
          defaultWords.length - 1 → prog.index = 0) :=
  ⟨by decide,
    claim_C10_cursor_range defaultWords ("t0") ("g") freshP (by decide)⟩

/-- Claim C4: a payload whose normalized text is empty or one of the
reserved phrases daily word, start, help routes to the rotation branch
(the handler's final state is the pickNextWord-updated store), and every
other normalized text routes to the acknowledgement branch (the store is
returned untouched). -/
theorem claim_C4_triggers (words : List WordEntry) (saveFails : Bool)
    (now : String) (body : Body) (P : ProgressMap) :
    (extractText body ∈ (["", "daily word", "start", "help"] : List String) →
      isAckBranch (extractText body) = false ∧
      (handle words saveFails now body P).2 =
        (pickNextWord words now (extractChannelId body) P).2.2) ∧
    (extractText body ∉ (["", "daily word", "start", "help"] : List String) →
      isAckBranch (extractText body) = true ∧
      (handle words saveFails now body P).2 = P) := by
  constructor
  · intro h
    have hAck : isAckBranch (extractText body) = false := by
      simp only [List.mem_cons, List.not_mem_nil, or_false] at h
      rcases h with h | h | h | h <;> rw [h] <;> decide
    exact ⟨hAck, by simp [handle, hAck]⟩
  · intro h
    simp only [List.mem_cons, List.not_mem_nil, or_false, not_or] at h
    obtain ⟨h1, h2, h3, h4⟩ := h
    have hAck : isAckBranch (extractText body) = true := by
      simp [isAckBranch, h1, h2, h3, h4, strLengthPos _ h1]
    exact ⟨hAck, by simp [handle, hAck]⟩

/-- Witness for C4 at a payload whose raw text is " DAILY Word ". -/
theorem claim_C4_triggers_witness :
    isAckBranch (extractText bodyDaily) = false ∧
    (handle defaultWords false ("t0") bodyDaily freshP).2 =
      (pickNextWord defaultWords ("t0") (extractChannelId bodyDaily) freshP).2.2 :=
  (claim_C4_triggers defaultWords false ("t0") bodyDaily freshP).1 (by decide)

/-- Claim C5: a request routed to the acknowledgement branch leaves the
whole progress store unchanged and its outcome does not depend on whether
a durable write would fail, because no write is performed. -/
theorem claim_C5_ack_no_mutation (words : List WordEntry) (saveFails : Bool)
    (now : String) (body : Body) (P : ProgressMap)
    (h : isAckBranch (extractText body) = true) :
    (handle words saveFails now body P).2 = P ∧
    handle words true now body P = handle words false now body P := by
  constructor <;> simp [handle, h]

/-- Witness for C5 at an ordinary free-text reply. -/
theorem claim_C5_ack_no_mutation_witness :
    isAckBranch (extractText bodyReply) = true ∧
    ((handle defaultWords true ("t0") bodyReply freshP).2 = freshP ∧
      handle defaultWords true ("t0") bodyReply freshP =
        handle defaultWords false ("t0") bodyReply freshP) :=
  ⟨by decide,
    claim_C5_ack_no_mutation defaultWords true ("t0") bodyReply freshP (by decide)⟩

/-- Claim C7: when the durable write fails during a daily-word request,
the handler returns the generic internal-error response. -/
theorem claim_C7_write_failure (words : List WordEntry) (now : String)
    (body : Body) (P : ProgressMap)
    (h : isAckBranch (extractText body) = false) :
    (handle words true now body P).1 =
      HandlerResult.err ("Agent internal error") := by
  simp [handle, h]

/-- Witness for C7 at a daily-word request with a failing write. -/
theorem claim_C7_write_failure_witness :
    isAckBranch (extractText bodyDaily) = false ∧
    (handle defaultWords true ("t0") bodyDaily freshP).1 =
      HandlerResult.err ("Agent internal error") :=
  ⟨by decide, claim_C7_write_failure defaultWords ("t0") bodyDaily freshP (by decide)⟩

/-- Claim C6: catalog loading always yields a non-empty catalog; every
source state other than a non-empty array yields exactly the built-in
default list, and a non-empty array is used verbatim. -/
theorem claim_C6_catalog_fallback (src : CatalogSource) :
    0 < (loadWords src).length ∧
    (isNonEmptyArraySrc src = false → loadWords src = defaultWords) ∧
    (∀ es : List WordEntry, src = CatalogSource.array es → 0 < es.length →
      loadWords src = es) := by
  cases src with
  | array es =>
    by_cases h : 0 < es.length
    · refine ⟨by simp [loadWords, h], ?_, ?_⟩
      · intro hfalse
        simp [isNonEmptyArraySrc, h] at hfalse
      · intro es2 heq _
        cases heq
        simp [loadWords, h]
    · refine ⟨?_, ?_, ?_⟩
      · rw [show loadWords (CatalogSource.array es) = defaultWords from by
          simp [loadWords, h]]
        decide
      · intro _
        simp [loadWords, h]
      · intro es2 heq hpos
        cases heq
        exact absurd hpos h
  | missing => exact ⟨by decide, fun _ => rfl, fun es h => by cases h⟩
  | unparseable => exact ⟨by decide, fun _ => rfl, fun es h => by cases h⟩
  | nonArray => exact ⟨by decide, fun _ => rfl, fun es h => by cases h⟩

/-- Witness for C6: a missing file falls back to the default list and a
non-empty parsed array is used verbatim. -/
theorem claim_C6_catalog_fallback_witness :
    isNonEmptyArraySrc CatalogSource.missing = false ∧
    loadWords CatalogSource.missing = defaultWords ∧
    0 < chienWords.length ∧
    loadWords (CatalogSource.array chienWords) = chienWords :=
  ⟨rfl, (claim_C6_catalog_fallback CatalogSource.missing).2.1 rfl,
    by decide,
    (claim_C6_catalog_fallback (CatalogSource.array chienWords)).2.2
      chienWords rfl (by decide)⟩

/-- Unfolding of the last-served-index computation at an existing
record. -/
theorem lastIndexOf_some (words : List WordEntry) (P : ProgressMap)
    (c : String) (prog : Progress) (h : P c = some prog) :
    lastIndexOf words P c =
      if prog.index != 0 then
        some ((prog.index + words.length - 1) % words.length)
      else none := by
  unfold lastIndexOf
  rw [h]

/-- Counterexample to C2: after serving channel g all six default words
(so at least one word has been served and the stored cursor is 0), the
handler computes no last-served index — instead of entry (0 - 1) mod 6 =
5 — and composes the generic-example guidance text. -/
theorem claim_C2_counterexample :
    (serveN defaultWords ("t0") ("g") 6 freshP).1.length = 6 ∧
    lastIndexOf defaultWords sixServedP ("g") = none ∧
    (handle defaultWords false ("t1") bodyChat sixServedP).1 =
      HandlerResult.ok (buildResponsePayload (tipText ("example")) false) :=
  ⟨by decide, by decide, by decide⟩

/-- Amended C2: for a conversation first served n >= 1 words, the handler
uses the entry at (cursor - 1) mod total — which is (n - 1) mod total,
the word actually served last — exactly when the stored cursor n mod
total is non-zero; when the cursor is 0 (never served, or served a
multiple of the catalog size) it falls back to the unknown-prior-word
branch. -/
theorem claim_C2_amended (words : List WordEntry) (now c : String)
    (P : ProgressMap) (hT : 0 < words.length) (hfresh : P c = none)
    (n : Nat) (hn : 0 < n) :
    lastIndexOf words ((serveN words now c n P).2) c =
      if n % words.length = 0 then none
      else some ((n - 1) % words.length) := by
  obtain ⟨m, rfl⟩ : ∃ m, n = m + 1 := ⟨n - 1, by omega⟩
  have hs := serveN_state words now c m P
  have he : effIdx P c = 0 := by simp [effIdx, hfresh]
  rw [he] at hs
  simp only [Nat.zero_add] at hs
  rw [lastIndexOf_some words _ c _ hs]
  by_cases h0 : (m + 1) % words.length = 0
  · simp [h0]
  · have hlt : (m + 1) % words.length < words.length := Nat.mod_lt _ hT
    have h1 : 1 ≤ (m + 1) % words.length := Nat.one_le_iff_ne_zero.mpr h0
    rw [if_neg h0]
    have hne : (((m + 1) % words.length : Nat) != 0) = true := by
      simpa using h0
    rw [hne, if_pos rfl]
    refine congrArg some ?_
    have hq := Nat.div_add_mod (m + 1) words.length
    have hm2 : m = words.length * ((m + 1) / words.length)
        + ((m + 1) % words.length - 1) := by omega
    have hmod : m % words.length
        = ((m + 1) % words.length - 1) % words.length := by
      conv_lhs => rw [hm2]
      rw [Nat.mul_add_mod]
    have hsum : (m + 1) % words.length + words.length - 1
        = ((m + 1) % words.length - 1) + words.length := by omega
    have hm1 : m + 1 - 1 = m := by omega
    rw [hsum, Nat.add_mod_right, hm1, hmod,
      Nat.mod_eq_of_lt (by omega)]

/-- Witness for amended C2: after three serves of the six-word default
catalog the last-served index is 2. -/
theorem claim_C2_amended_witness :
    0 < defaultWords.length ∧ freshP ("g") = none ∧ 0 < 3 ∧
    lastIndexOf defaultWords ((serveN defaultWords ("t0") ("g") 3 freshP).2) ("g") =
      if 3 % defaultWords.length = 0 then none
      else some ((3 - 1) % defaultWords.length) :=
  ⟨by decide, rfl, by decide,
    claim_C2_amended defaultWords ("t0") ("g") freshP (by decide) rfl 3 (by decide)⟩

/-- Counterexample to C3: the catalog word Chien (stored with a capital)
is contained in the reply ignoring letter case, yet the handler —
having lowercased only the reply — composes the guidance text, not the
congratulatory one. -/
theorem claim_C3_counterexample :
    strIncludes (jsToLower (jsTrim ("mon Chien est mignon")))
        (jsToLower ("Chien")) = true ∧
    (handle chienWords false ("t1") bodyChien oneServedChienP).1 =
      HandlerResult.ok (buildResponsePayload
        (tipText ("Le chien court dans le parc.")) false) ∧
    (handle chienWords false ("t1") bodyChien oneServedChienP).1 ≠
      HandlerResult.ok (buildResponsePayload (congratsText ("Chien")) false) :=
  ⟨by decide, by decide, by decide⟩

/-- Amended C3: the containment test compares the served word verbatim
against the (already trimmed and lowercased) reply, so it is
case-insensitive only in the reply's casing: when the stored word occurs
verbatim the response is the congratulatory text, otherwise the guidance
text with the entry's example sentence. -/
theorem claim_C3_amended (words : List WordEntry) (i : Nat) (e : WordEntry)
    (reply : String) (hi : words[i]? = some e) (hw : e.word ≠ ("")) :
    (strIncludes reply e.word = true →
      ackReplyText words (some i) reply = congratsText e.word) ∧
    (strIncludes reply e.word = false →
      ackReplyText words (some i) reply = tipText e.ex) := by
  constructor <;> intro h <;>
    simp [ackReplyText, hi, jsTruthyStr, hw, h]

/-- Witness for amended C3: the congratulation branch at the chienWords
catalog, for a reply containing the stored word verbatim. -/
theorem claim_C3_amended_witness :
    chienWords[0]? = some wChien ∧
    strIncludes ("le Chien aboie") (wChien.word) = true ∧
    ackReplyText chienWords (some 0) ("le Chien aboie") =
      congratsText wChien.word :=
  ⟨rfl, by decide,
    (claim_C3_amended chienWords 0 wChien ("le Chien aboie") rfl
      (by decide)).1 (by decide)⟩

/-- Counterexample to C8: with a present-but-empty top-level channel id
and a metadata channel id of meta, the code skips the empty field and
answers meta, while the first probe that yields a value answers the empty
string. -/
theorem claim_C8_counterexample :
    extractChannelId bodyC8 = "meta" ∧
    claimChannelId bodyC8 = "" ∧
    extractChannelId bodyC8 ≠ claimChannelId bodyC8 :=
  ⟨by decide, by decide, by decide⟩

/-- Prepending a probe to the first-truthy fold is the JS short-circuit
or. -/
theorem firstTruthy_cons_getD (a : Option String) (l : List (Option String))
    (d : String) :
    (firstTruthy (a :: l)).getD d = jsOrStr a ((firstTruthy l).getD d) := by
  cases a with
  | none => rfl
  | some s =>
    by_cases h : s = ""
    · simp [firstTruthy, jsOrStr, h]
    · simp [firstTruthy, jsOrStr, h]

/-- Amended C8: the conversation identifier is the first probe — nested
channel-object id, top-level channel id, first address segment, metadata
channel id, in that order — that yields a non-empty (truthy) value;
present but empty values are skipped, and when every probe is absent or
empty the sentinel global is used. -/
theorem claim_C8_amended (body : Body) :
    extractChannelId body =
      (firstTruthy (candidates body)).getD ("global") := by
  simp only [candidates]
  rw [firstTruthy_cons_getD, firstTruthy_cons_getD, firstTruthy_cons_getD,
    firstTruthy_cons_getD]
  rfl

end DailyWord
